import Mathlib

/-!
Shallow embedding of `src/legendary_rotary_phone.py` (class `RotaryPhone`).

Modelling choices:
- Error kinds are an inductive `PhoneError`: `InvalidNumber` is the
  `ValueError` raised by `_validate_phone_number`, `InvalidDigit` the
  `ValueError` raised by `dial_digit`, `AlreadyConnected` the `RuntimeError`
  raised by `dial_digit`, `NothingDialed` the `RuntimeError` raised by `call`.
- Each operation returns the phone state after the operation (Python objects
  keep the mutations performed before an exception), the list of `time.sleep`
  durations performed, in milliseconds as `Nat` (all the sleeps in the source
  are exact multiples of 100 ms), and an `Except PhoneError` result.
- `print` calls are pure output and are not modelled.
-/

deriving instance DecidableEq for Except

/-- The four error kinds raised by the `RotaryPhone` methods. -/
inductive PhoneError where
  | InvalidNumber
  | InvalidDigit
  | AlreadyConnected
  | NothingDialed
deriving DecidableEq

/-- The mutable state of a `RotaryPhone` instance:
`dialed_number` (list of single characters, named `dialed_digits` in the spec),
`is_connected` (named `connected` in the spec) and `call_log`. -/
structure RotaryPhone where
  dialed_number : List Char
  is_connected : Bool
  call_log : List String
deriving DecidableEq

/-- `DELAY_PER_UNIT = 100` (milliseconds per rotary pulse). -/
def DELAY_PER_UNIT : Nat := 100

/-- `INTER_DIGIT_DELAY = 0.5` seconds, i.e. 500 ms. -/
def INTER_DIGIT_DELAY : Nat := 500

/-- The `time.sleep(1)` in `call`, i.e. 1000 ms. -/
def CALL_CONNECT_DELAY : Nat := 1000

/-- The `time.sleep(0.5)` in `hang_up`, i.e. 500 ms. -/
def HANG_UP_DELAY : Nat := 500

/-- The key-value pairs of the `PULSE_MAP` dictionary literal, in source
order. -/
def PULSE_MAP_entries : List (Char × Nat) :=
  [('1', 1), ('2', 2), ('3', 3), ('4', 4), ('5', 5),
   ('6', 6), ('7', 7), ('8', 8), ('9', 9), ('0', 10)]

/-- `PULSE_MAP`: the digit-to-pulse-count dictionary; lookup yields `none`
exactly when the key is absent (`digit not in self.PULSE_MAP`). -/
def PULSE_MAP (c : Char) : Option Nat :=
  PULSE_MAP_entries.lookup c

/-- ASCII digit test: `c` is one of the characters `0`-`9`. -/
def isAsciiDigit (c : Char) : Bool := '0' ≤ c && c ≤ '9'

/-- Truthiness of `re.match` with pattern `^\d+$` in Python: the match
succeeds iff the string is a non-empty run of digits, or a non-empty run of
digits followed by a single trailing newline (Python `$` also matches just
before a newline at the end of the string). Python `\d` additionally matches
non-ASCII Unicode decimal digits; the model restricts `\d` to the ASCII
digits `0`-`9`, which is exact on ASCII input (every concrete input used
below is ASCII). -/
def pyMatchAllDigits (s : String) : Bool :=
  let cs := s.toList
  (!cs.isEmpty && cs.all isAsciiDigit) ||
    (cs.getLast? == some '\n' && !cs.dropLast.isEmpty && cs.dropLast.all isAsciiDigit)

/-- `_validate_phone_number`: raises `InvalidNumber` when
`re.match` with pattern `^\d+$` fails; otherwise returns with no state change. -/
def validate_phone_number (number : String) : Except PhoneError Unit :=
  if pyMatchAllDigits number then Except.ok () else Except.error PhoneError.InvalidNumber

/-- `__init__`: the fields start empty/false; when `phone_number` is truthy
(not `None` and not the empty string) it is validated and, on success, its
characters become `dialed_number`. On a validation error no object is
produced in Python; the returned state is paired with the error so callers
can distinguish the cases. -/
def mkRotaryPhone (phone_number : Option String) : RotaryPhone × Except PhoneError Unit :=
  let base : RotaryPhone := ⟨[], false, []⟩
  match phone_number with
  | none => (base, Except.ok ())
  | some n =>
    if n.isEmpty then (base, Except.ok ())
    else
      match validate_phone_number n with
      | Except.error e => (base, Except.error e)
      | Except.ok _ => ({ base with dialed_number := n.toList }, Except.ok ())

/-- `dial_digit`: rejects when connected, rejects characters outside
`PULSE_MAP`, otherwise sleeps `pulses * DELAY_PER_UNIT` ms, appends the digit,
and then sleeps `INTER_DIGIT_DELAY` when
`digit != self.dialed_number[-1] or len(self.dialed_number) > 1`
(evaluated after the append, as in the source). -/
def dial_digit (p : RotaryPhone) (digit : Char) :
    RotaryPhone × List Nat × Except PhoneError Unit :=
  if p.is_connected then (p, [], Except.error PhoneError.AlreadyConnected)
  else
    match PULSE_MAP digit with
    | none => (p, [], Except.error PhoneError.InvalidDigit)
    | some pulses =>
      let delayMs := pulses * DELAY_PER_UNIT
      let p1 : RotaryPhone := { p with dialed_number := p.dialed_number ++ [digit] }
      if p1.dialed_number.getLast? != some digit || p1.dialed_number.length > 1 then
        (p1, [delayMs, INTER_DIGIT_DELAY], Except.ok ())
      else
        (p1, [delayMs], Except.ok ())

/-- The `for digit in phone_number: self.dial_digit(digit)` loop of
`dial_number`: dials the characters in order, stopping at the first failure
and keeping the state and sleeps accumulated up to that point. -/
def dialList (p : RotaryPhone) (ds : List Char) :
    RotaryPhone × List Nat × Except PhoneError Unit :=
  match ds with
  | [] => (p, [], Except.ok ())
  | d :: rest =>
    match dial_digit p d with
    | (p1, s1, Except.error e) => (p1, s1, Except.error e)
    | (p1, s1, Except.ok _) =>
      match dialList p1 rest with
      | (p2, s2, r2) => (p2, s1 ++ s2, r2)

/-- `dial_number`: validates the whole string first (even while connected),
then dials it character by character. -/
def dial_number (p : RotaryPhone) (number : String) :
    RotaryPhone × List Nat × Except PhoneError Unit :=
  match validate_phone_number number with
  | Except.error e => (p, [], Except.error e)
  | Except.ok _ => dialList p number.toList

/-- `call`: raises `NothingDialed` when `dialed_number` is empty (the only
check); otherwise sleeps 1000 ms, sets `is_connected`, appends the joined
digits to `call_log` and returns `true`. -/
def call (p : RotaryPhone) : RotaryPhone × List Nat × Except PhoneError Bool :=
  if p.dialed_number.isEmpty then (p, [], Except.error PhoneError.NothingDialed)
  else
    ({ p with is_connected := true,
              call_log := p.call_log ++ [String.mk p.dialed_number] },
     [CALL_CONNECT_DELAY], Except.ok true)

/-- `hang_up`: a no-op when not connected; otherwise sleeps 500 ms, clears
the connection flag and empties `dialed_number`. -/
def hang_up (p : RotaryPhone) : RotaryPhone × List Nat × Except PhoneError Unit :=
  if p.is_connected then
    ({ p with is_connected := false, dialed_number := [] }, [HANG_UP_DELAY], Except.ok ())
  else (p, [], Except.ok ())

/-- `clear`: empties `dialed_number` unconditionally. -/
def clear (p : RotaryPhone) : RotaryPhone × List Nat × Except PhoneError Unit :=
  ({ p with dialed_number := [] }, [], Except.ok ())

/-- The phone states reachable in a program run: a successfully constructed
phone, followed by any sequence of the mutating operations (a Python object
survives an exception raised by a method, so the post-state of a failing
operation is reachable too). -/
inductive Reachable : RotaryPhone → Prop where
  | construct (n : Option String) (p : RotaryPhone) :
      mkRotaryPhone n = (p, Except.ok ()) → Reachable p
  | step_dial_digit (p : RotaryPhone) (d : Char) :
      Reachable p → Reachable (dial_digit p d).1
  | step_dial_number (p : RotaryPhone) (s : String) :
      Reachable p → Reachable (dial_number p s).1
  | step_call (p : RotaryPhone) : Reachable p → Reachable (call p).1
  | step_hang_up (p : RotaryPhone) : Reachable p → Reachable (hang_up p).1
  | step_clear (p : RotaryPhone) : Reachable p → Reachable (clear p).1

/-- Claim C1: the spec states that `validate` fails with `InvalidNumber` on
every string that is empty or contains a character outside `0`-`9`. The code
evaluated at the failing input `"123\n"`: validation succeeds although the
string contains the newline character, which is not in `0`-`9`, because the
Python pattern `^\d+$` also matches a digit run followed by one trailing
newline. This contradicts the function's own documentation ("only digits 0-9
are allowed"). -/
theorem c1_validate_accepts_trailing_newline :
    validate_phone_number "123\n" = Except.ok () ∧
    '\n' ∈ "123\n".toList ∧ isAsciiDigit '\n' = false := by
  refine ⟨rfl, ?_, rfl⟩
  decide

/-- Claim C2: the spec claims every reachable state has `dialed_digits`
composed only of characters `0`-`9`. The code evaluated at the failing input:
constructing a phone with initial number `"123\n"` succeeds (validation
accepts the trailing newline) and yields a reachable state whose buffer
contains the newline character. -/
theorem c2_reachable_state_with_newline_in_buffer :
    mkRotaryPhone (some "123\n") = (⟨"123\n".toList, false, []⟩, Except.ok ()) ∧
    Reachable ⟨"123\n".toList, false, []⟩ ∧
    '\n' ∈ "123\n".toList ∧ isAsciiDigit '\n' = false := by
  refine ⟨rfl, Reachable.construct (some "123\n") _ rfl, ?_, rfl⟩
  decide

/-- Claim C3: the spec states that a successful `dial_digit` suspends for the
inter-digit pause unconditionally, for every digit including the first digit
dialed into an empty buffer. The code evaluated at the failing input: dialing
`'1'` into an empty buffer sleeps only the 100 ms rotary delay and skips the
500 ms inter-digit pause (the condition
`digit != dialed_number[-1] or len(dialed_number) > 1`, evaluated after the
append, is false exactly when the buffer held nothing before); a second
dialed digit does get the pause. -/
theorem c3_first_digit_skips_inter_digit_pause :
    (dial_digit ⟨[], false, []⟩ '1').2.1 = [100] ∧
    (dial_digit (dial_digit ⟨[], false, []⟩ '1').1 '1').2.1 = [100, 500] ∧
    1 * DELAY_PER_UNIT = 100 ∧ INTER_DIGIT_DELAY = 500 := by decide

/-- Claim C10: constructing a phone with the empty string as initial number
raises no error and yields an empty buffer (the `if phone_number:` guard is
false for the empty string, so validation is skipped), even though
`validate` applied to the empty string fails with `InvalidNumber`. -/
theorem c10_empty_initial_number_skips_validation :
    mkRotaryPhone (some "") = (⟨[], false, []⟩, Except.ok ()) ∧
    validate_phone_number "" = Except.error PhoneError.InvalidNumber := by decide

/-- Claim C6: `hang_up` while connected sets `connected` to false and empties
`dialed_digits`, leaving `call_log` unchanged; `hang_up` while not connected
changes nothing (no sleeps, no error, identical state). -/
theorem c6_hang_up_effects (p : RotaryPhone) :
    ((hang_up p).1.call_log = p.call_log) ∧
    (p.is_connected = true →
      (hang_up p).1.is_connected = false ∧ (hang_up p).1.dialed_number = [] ∧
      (hang_up p).2.2 = Except.ok ()) ∧
    (p.is_connected = false → hang_up p = (p, [], Except.ok ())) := by
  cases hc : p.is_connected <;> simp [hang_up, hc]

/-- Witness for C6 at concrete states: a connected phone and a disconnected
phone. -/
theorem c6_hang_up_effects_witness :
    (hang_up ⟨['5'], true, ["5"]⟩).1.call_log = ["5"] ∧
    (hang_up ⟨['5'], true, ["5"]⟩).1.is_connected = false ∧
    (hang_up ⟨['5'], true, ["5"]⟩).1.dialed_number = [] ∧
    hang_up ⟨[], false, []⟩ = (⟨[], false, []⟩, [], Except.ok ()) := by
  have h1 := c6_hang_up_effects ⟨['5'], true, ["5"]⟩
  have h2 := c6_hang_up_effects ⟨[], false, []⟩
  exact ⟨h1.1, (h1.2.1 rfl).1, (h1.2.1 rfl).2.1, h2.2.2 rfl⟩

/-- Counterexample for C7: the state with an empty buffer and `connected`
still true is reachable (dial `'5'`, `call`, then `clear`, which empties the
buffer regardless of connection state); invoking `call` there fails with
`NothingDialed` but leaves `connected` true, not false as the claim states. -/
theorem c7_counterexample_call_empty_while_connected :
    ((clear (call (dial_digit ⟨[], false, []⟩ '5').1).1).1.dialed_number = []) ∧
    ((clear (call (dial_digit ⟨[], false, []⟩ '5').1).1).1.is_connected = true) ∧
    ((call (clear (call (dial_digit ⟨[], false, []⟩ '5').1).1).1).2.2 =
      Except.error PhoneError.NothingDialed) ∧
    ((call (clear (call (dial_digit ⟨[], false, []⟩ '5').1).1).1).1.is_connected = true) := by
  decide

/-- Claim C7 (amended): calling `call` with empty `dialed_digits` always
fails with `NothingDialed` and leaves the whole state unchanged; in
particular `connected` keeps its prior value, so it remains false whenever
it was false before the call. -/
theorem c7_call_empty_buffer_leaves_state_unchanged (p : RotaryPhone)
    (h : p.dialed_number = []) :
    call p = (p, [], Except.error PhoneError.NothingDialed) := by
  simp [call, h]

/-- Witness for C7 (amended) at the freshly constructed phone. -/
theorem c7_witness :
    call ⟨[], false, []⟩ = (⟨[], false, []⟩, [], Except.error PhoneError.NothingDialed) :=
  c7_call_empty_buffer_leaves_state_unchanged ⟨[], false, []⟩ rfl

/-- Claim C5: whenever `call` is invoked with a non-empty buffer it succeeds:
it sleeps the ringing delay, sets `connected` to true, appends exactly one
entry, the concatenation of `dialed_digits` at call time, to `call_log`, and
returns true. -/
theorem c5_call_success (p : RotaryPhone) (h : p.dialed_number ≠ []) :
    call p =
      ({ p with is_connected := true,
                call_log := p.call_log ++ [String.mk p.dialed_number] },
       [CALL_CONNECT_DELAY], Except.ok true) := by
  have hne : p.dialed_number.isEmpty = false := by
    cases hd : p.dialed_number with
    | nil => exact absurd hd h
    | cons a l => rfl
  simp [call, hne]

/-- Witness for C5 at a phone with `'5'` dialed. -/
theorem c5_witness :
    call ⟨['5'], false, []⟩ = (⟨['5'], true, ["5"]⟩, [1000], Except.ok true) := by
  rw [c5_call_success ⟨['5'], false, []⟩ (by decide)]
  rfl

/-- A string accepted by the `^\d+$` match is non-empty. -/
theorem pyMatch_toList_ne_nil (s : String) (h : pyMatchAllDigits s = true) :
    s.toList ≠ [] := by
  intro hd
  unfold pyMatchAllDigits at h
  rw [hd] at h
  simp at h

/-- Counterexample for C4: while connected, `dial_number` validates its
argument before checking the connection flag, so a malformed number fails
with `InvalidNumber`, not `AlreadyConnected`. -/
theorem c4_counterexample_invalid_number_while_connected :
    (⟨['5'], true, ["5"]⟩ : RotaryPhone).is_connected = true ∧
    (dial_number ⟨['5'], true, ["5"]⟩ "A").2.2 = Except.error PhoneError.InvalidNumber ∧
    PhoneError.InvalidNumber ≠ PhoneError.AlreadyConnected := by decide

/-- Claim C4 (amended): while `connected` is true, `dial_digit` always fails
with `AlreadyConnected`, and `dial_number` always fails — with
`AlreadyConnected` when the argument passes validation, with `InvalidNumber`
when it does not — and in every case the state (`dialed_digits`, `connected`,
`call_log`) is unchanged and no delay is incurred. -/
theorem c4_connected_dialing_rejected (p : RotaryPhone) (h : p.is_connected = true) :
    (∀ d, dial_digit p d = (p, [], Except.error PhoneError.AlreadyConnected)) ∧
    (∀ s, dial_number p s =
      (p, [], Except.error
        (if pyMatchAllDigits s then PhoneError.AlreadyConnected
         else PhoneError.InvalidNumber))) := by
  have hdd : ∀ d, dial_digit p d = (p, [], Except.error PhoneError.AlreadyConnected) := by
    intro d
    simp [dial_digit, h]
  refine ⟨hdd, ?_⟩
  intro s
  unfold dial_number validate_phone_number
  cases hm : pyMatchAllDigits s with
  | false => simp [hm]
  | true =>
    simp only [hm, if_true]
    have hne := pyMatch_toList_ne_nil s hm
    cases hd : s.toList with
    | nil => exact absurd hd hne
    | cons a l => simp [dialList, hdd a]

/-- Witness for C4 (amended) at a connected phone, with one valid and one
invalid number. -/
theorem c4_witness :
    dial_digit ⟨['5'], true, []⟩ '7' =
      (⟨['5'], true, []⟩, [], Except.error PhoneError.AlreadyConnected) ∧
    dial_number ⟨['5'], true, []⟩ "12" =
      (⟨['5'], true, []⟩, [], Except.error PhoneError.AlreadyConnected) ∧
    dial_number ⟨['5'], true, []⟩ "A" =
      (⟨['5'], true, []⟩, [], Except.error PhoneError.InvalidNumber) := by
  have h := c4_connected_dialing_rejected ⟨['5'], true, []⟩ rfl
  refine ⟨h.1 '7', ?_, ?_⟩
  · rw [h.2 "12"]
    decide
  · rw [h.2 "A"]
    decide

/-- Claim C8: a successful `dial_digit` on digit `d` appends exactly the one
character `d` to the buffer, the rotary delay is the digit's pulse count
times `DELAY_PER_UNIT`, that delay is strictly increasing in the pulse
count, and the pulse map sends `1`-`9` to 1-9 and `0` to 10, so `0` has the
largest pulse count and hence the largest delay. -/
theorem c8_dial_digit_append_and_delay :
    (∀ p d n, p.is_connected = false → PULSE_MAP d = some n →
      (dial_digit p d).1.dialed_number = p.dialed_number ++ [d] ∧
      (dial_digit p d).2.2 = Except.ok () ∧
      (dial_digit p d).2.1.head? = some (n * DELAY_PER_UNIT)) ∧
    (∀ d1 d2 n1 n2, PULSE_MAP d1 = some n1 → PULSE_MAP d2 = some n2 → n1 < n2 →
      n1 * DELAY_PER_UNIT < n2 * DELAY_PER_UNIT) ∧
    (PULSE_MAP '1' = some 1 ∧ PULSE_MAP '2' = some 2 ∧ PULSE_MAP '3' = some 3 ∧
     PULSE_MAP '4' = some 4 ∧ PULSE_MAP '5' = some 5 ∧ PULSE_MAP '6' = some 6 ∧
     PULSE_MAP '7' = some 7 ∧ PULSE_MAP '8' = some 8 ∧ PULSE_MAP '9' = some 9 ∧
     PULSE_MAP '0' = some 10) ∧
    (∀ d ∈ ['0', '1', '2', '3', '4', '5', '6', '7', '8', '9'],
      ∀ n, PULSE_MAP d = some n → n ≤ 10 ∧ (n = 10 ↔ d = '0')) := by
  refine ⟨?_, ?_, by decide, by decide⟩
  · intro p d n hc hm
    simp only [dial_digit, hc, hm, if_false, Bool.false_eq_true]
    split <;> simp
  · intro d1 d2 n1 n2 h1 h2 hlt
    exact mul_lt_mul_of_pos_right hlt (by decide)

/-- Witness for C8 at digit `'3'` on a fresh phone, and pulse counts 1 and 10. -/
theorem c8_witness :
    (dial_digit ⟨[], false, []⟩ '3').1.dialed_number = ['3'] ∧
    (dial_digit ⟨[], false, []⟩ '3').2.1.head? = some 300 ∧
    1 * DELAY_PER_UNIT < 10 * DELAY_PER_UNIT := by
  have h1 := c8_dial_digit_append_and_delay.1 ⟨[], false, []⟩ '3' 3 rfl rfl
  have h2 := c8_dial_digit_append_and_delay.2.1 '1' '0' 1 10 rfl rfl (by decide)
  exact ⟨h1.1, h1.2.2, h2⟩

/-- Claim C9: `call` fails with `NothingDialed` exactly when the buffer is
empty, irrespective of `connected`; in particular a second `call` while
already connected (the buffer is not cleared by a successful call) succeeds,
leaves the buffer unchanged, and appends another entry for the same number
to `call_log`. -/
theorem c9_call_checks_only_buffer_emptiness (p : RotaryPhone) :
    ((call p).2.2 = Except.error PhoneError.NothingDialed ↔ p.dialed_number = []) ∧
    (p.is_connected = true → p.dialed_number ≠ [] →
      call p = ({ p with call_log := p.call_log ++ [String.mk p.dialed_number] },
                [CALL_CONNECT_DELAY], Except.ok true)) := by
  constructor
  · cases hd : p.dialed_number with
    | nil => simp [call, hd]
    | cons a l => simp [call, hd]
  · intro hc hne
    obtain ⟨dn, ic, cl⟩ := p
    simp only at hc
    subst hc
    have hne2 : dn.isEmpty = false := by
      cases hdn : dn with
      | nil => exact absurd hdn hne
      | cons a l => rfl
    simp [call, hne2]

/-- Witness for C9: a second `call` on a connected phone with `'5'` buffered
duplicates the log entry; `call` with an empty buffer while connected fails
with `NothingDialed`. -/
theorem c9_witness :
    call ⟨['5'], true, ["5"]⟩ = (⟨['5'], true, ["5", "5"]⟩, [1000], Except.ok true) ∧
    (call ⟨[], true, []⟩).2.2 = Except.error PhoneError.NothingDialed := by
  have h1 := (c9_call_checks_only_buffer_emptiness ⟨['5'], true, ["5"]⟩).2 rfl (by decide)
  have h2 := (c9_call_checks_only_buffer_emptiness ⟨[], true, []⟩).1
  exact ⟨h1, h2.mpr rfl⟩

